import Mathlib

/-!
Verification of the data semantics of a single-file catalog dashboard
(streamlit_app.py): the dataset loader that derives numeric duration
fields, the sidebar filter pipeline, and the aggregation helpers that
feed the charts.  Rows are modelled as records, tables as lists of rows,
and the pandas operations used by the script (element-wise apply that may
raise, boolean-mask filtering, value_counts, head) are given explicit
executable definitions.
-/

namespace Dashboard

/-- Substring test on character lists: does pat occur contiguously? -/
def isSubList (pat : List Char) : List Char → Bool
  | [] => pat.isEmpty
  | c :: cs => pat.isPrefixOf (c :: cs) || isSubList pat cs

/-- Python membership test on strings: pat in hay iff pat is a contiguous
substring of hay. -/
def strContains (hay pat : String) : Bool :=
  isSubList pat.toList hay.toList

/-- Numeric value of a list of decimal digit characters. -/
def digitsToNat (cs : List Char) : Nat :=
  cs.foldl (fun a c => a * 10 + (c.toNat - 48)) 0

/-- Model of re.search for one-or-more digits followed by int(...): the first
maximal contiguous run of digit characters, as a number; none when the
string has no digit. -/
def firstDigitRun (s : String) : Option Nat :=
  let run := (s.toList.dropWhile (fun c => !c.isDigit)).takeWhile (fun c => c.isDigit)
  if run.isEmpty then none else some (digitsToNat run)

/-- One duration derivation, as in load_data lines 21-22: when the cell is
non-null and contains the unit token, take the first digit run; a token hit
with no digit run is the AttributeError that re.search(...).group() raises
on a failed match.  A null cell or a missing token yields null. -/
def deriveField (token : String) (d : Option String) : Except String (Option Nat) :=
  match d with
  | none => Except.ok none
  | some s =>
    if strContains s token then
      match firstDigitRun s with
      | some n => Except.ok (some n)
      | none => Except.error "AttributeError"
    else Except.ok none

/-- A raw CSV row of netflix_titles.csv before derivation. -/
structure RawRow where
  title : String
  type_ : String
  country : Option String
  date_added : Option String
  release_year : Int
  rating : Option String
  duration : Option String
  listed_in : Option String
deriving DecidableEq, Repr

/-- A loaded row: the raw fields plus the two derived duration columns. -/
structure Row where
  title : String
  type_ : String
  country : Option String
  date_added : Option String
  release_year : Int
  rating : Option String
  duration : Option String
  listed_in : Option String
  duration_minutes : Option Nat
  num_seasons : Option Nat
deriving DecidableEq, Repr

/-- Assemble a loaded row from a raw row and its two derived cells. -/
def mkRow (r : RawRow) (m s : Option Nat) : Row :=
  { title := r.title, type_ := r.type_, country := r.country,
    date_added := r.date_added, release_year := r.release_year,
    rating := r.rating, duration := r.duration, listed_in := r.listed_in,
    duration_minutes := m, num_seasons := s }

/-- Element-wise Series.apply over a column: the first raised exception
aborts the whole apply and propagates. -/
def mapME {α β : Type} (f : α → Except String β) : List α → Except String (List β)
  | [] => Except.ok []
  | a :: as =>
    match f a with
    | Except.error e => Except.error e
    | Except.ok b =>
      match mapME f as with
      | Except.error e => Except.error e
      | Except.ok bs => Except.ok (b :: bs)

/-- Zip three aligned columns into rows. -/
def zipWith3 {α β γ δ : Type} (f : α → β → γ → δ) : List α → List β → List γ → List δ
  | a :: as, b :: bs, c :: cs => f a b c :: zipWith3 f as bs cs
  | _, _, _ => []

/-- load_data lines 19-23: derive the duration_minutes column, then the
num_seasons column, each by an element-wise apply that can raise; on
success attach both derived cells to each row. -/
def load_data (rs : List RawRow) : Except String (List Row) :=
  match mapME (fun r => deriveField "min" r.duration) rs with
  | Except.error e => Except.error e
  | Except.ok ms =>
    match mapME (fun r => deriveField "Season" r.duration) rs with
    | Except.error e => Except.error e
    | Except.ok ss => Except.ok (zipWith3 mkRow rs ms ss)

/-- Did a fallible computation succeed? -/
def isOkE {α : Type} : Except String α → Bool
  | Except.ok _ => true
  | Except.error _ => false

/-- Does the (optional) duration text contain the given unit token? -/
def durTok (token : String) : Option String → Bool
  | none => false
  | some s => strContains s token

/-- The sidebar selection state passed into the filter pipeline: the chosen
type, country, genre and rating values, and the closed release-year range
from the slider. -/
structure Selection where
  types : List String
  countries : List String
  genres : List String
  ratings : List String
  yearLo : Int
  yearHi : Int
deriving DecidableEq, Repr

/-- Line 36: keep rows whose type is a member of the selected list
(Series.isin), applied unconditionally. -/
def typeFilter (types : List String) (df : List Row) : List Row :=
  df.filter (fun r => types.contains r.type_)

/-- The country row predicate of line 39: at least one selected token is a
substring of the raw country cell; a null cell matches nothing. -/
def countryMatch (countries : List String) (r : Row) : Bool :=
  match r.country with
  | some x => countries.any (fun c => strContains x c)
  | none => false

/-- Lines 37-39: when the selected country list is non-empty, drop rows with
a null country, then keep rows where some selected token is a substring of
the country cell; an empty selection skips the block entirely. -/
def countryFilter (countries : List String) (df : List Row) : List Row :=
  if countries.isEmpty then df
  else (df.filter (fun r => r.country.isSome)).filter (countryMatch countries)

/-- The genre row predicate of line 42, same substring semantics against
listed_in. -/
def genreMatch (genres : List String) (r : Row) : Bool :=
  match r.listed_in with
  | some x => genres.any (fun g => strContains x g)
  | none => false

/-- Lines 40-42: the genre block, identical in shape to the country block. -/
def genreFilter (genres : List String) (df : List Row) : List Row :=
  if genres.isEmpty then df
  else (df.filter (fun r => r.listed_in.isSome)).filter (genreMatch genres)

/-- The rating row predicate of line 44: Series.isin, exact membership of
the cell in the selected list; a null cell is in no list of strings. -/
def ratingMatch (ratings : List String) (r : Row) : Bool :=
  match r.rating with
  | some x => ratings.contains x
  | none => false

/-- Lines 43-44: when the selected rating list is non-empty, keep rows whose
rating is a member; an empty selection skips the block. -/
def ratingFilter (ratings : List String) (df : List Row) : List Row :=
  if ratings.isEmpty then df
  else df.filter (ratingMatch ratings)

/-- Line 45: inclusive release-year range, applied unconditionally. -/
def yearFilter (lo hi : Int) (df : List Row) : List Row :=
  df.filter (fun r => decide (lo ≤ r.release_year) && decide (r.release_year ≤ hi))

/-- Lines 36-45: the whole filter pipeline, type then country then genre
then rating then release year. -/
def filtered_df (sel : Selection) (df : List Row) : List Row :=
  yearFilter sel.yearLo sel.yearHi
    (ratingFilter sel.ratings
      (genreFilter sel.genres
        (countryFilter sel.countries
          (typeFilter sel.types df))))

/-- Distinct values of a column in first-seen order, as Series.unique and
the key order of a value_counts hash table. -/
def dedupFS : List String → List String
  | [] => []
  | x :: xs => x :: (dedupFS xs).filter (fun y => y ≠ x)

/-- The per-type counts behind the countplot of line 55: each distinct type
value paired with the number of rows carrying it. -/
def countByType (df : List Row) : List (String × Nat) :=
  (dedupFS (df.map Row.type_)).map (fun k => (k, (df.map Row.type_).count k))

/-- Left-to-right scan splitting a character list on the two-character
comma-space separator, leftmost non-overlapping occurrences first. -/
def splitCS : List Char → List Char → List (List Char)
  | acc, [] => [acc.reverse]
  | acc, [c] => [(c :: acc).reverse]
  | acc, c :: c2 :: rest2 =>
    if c = ',' ∧ c2 = ' ' then acc.reverse :: splitCS [] rest2
    else splitCS (c :: acc) (c2 :: rest2)

/-- Series.str.split on comma-space, as a string function. -/
def strSplitCS (s : String) : List String :=
  (splitCS [] s.toList).map (fun cs => String.mk cs)

/-- Line 71, dropna then str.split then explode: a null country cell yields
no tokens, a non-null one yields its comma-split tokens. -/
def splitCountries (r : Row) : List String :=
  match r.country with
  | none => []
  | some s => strSplitCS s

/-- All country tokens of the table, row by row. -/
def explodedCountries (df : List Row) : List String :=
  (df.map splitCountries).flatten

/-- Comparison used to order value_counts output: counts descending. -/
def cntGE (a b : String × Nat) : Prop := b.2 ≤ a.2

instance : DecidableRel cntGE := fun a b => Nat.decLe b.2 a.2

instance : IsTotal (String × Nat) cntGE := ⟨fun a b => Nat.le_total b.2 a.2⟩

instance : IsTrans (String × Nat) cntGE := ⟨fun _ _ _ h h2 => Nat.le_trans h2 h⟩

/-- Each distinct token with its number of occurrences, keys in first-seen
order. -/
def countsFirstSeen (xs : List String) : List (String × Nat) :=
  (dedupFS xs).map (fun k => (k, xs.count k))

/-- Series.value_counts: occurrence counts sorted descending by a stable
sort, so ties keep first-seen key order. -/
def value_counts (xs : List String) : List (String × Nat) :=
  List.insertionSort cntGE (countsFirstSeen xs)

/-- Line 71: value_counts over the exploded country tokens, capped to the
ten largest by head(10). -/
def top_countries (df : List Row) : List (String × Nat) :=
  (value_counts (explodedCountries df)).take 10

/-- The two script-level tables: df, the canonical loaded table, and the
view most recently derived from it. -/
structure DashState where
  df : List Row
  filtered : List Row
deriving DecidableEq, Repr

/-- One recompute pass of lines 36-45: rebind filtered_df from the cached
df; df itself is never reassigned. -/
def recompute (sel : Selection) (st : DashState) : DashState :=
  { df := st.df, filtered := filtered_df sel st.df }

/-- The conjunction of all five filter predicates of lines 36-45, with the
empty-selection bypasses of the country, genre and rating blocks. -/
def selPred (sel : Selection) (r : Row) : Bool :=
  sel.types.contains r.type_
    && (sel.countries.isEmpty || (r.country.isSome && countryMatch sel.countries r))
    && (sel.genres.isEmpty || (r.listed_in.isSome && genreMatch sel.genres r))
    && (sel.ratings.isEmpty || ratingMatch sel.ratings r)
    && (decide (sel.yearLo ≤ r.release_year) && decide (r.release_year ≤ sel.yearHi))

/-- Sample raw row shaped like the movie row of the spec scenario. -/
def rawMovie : RawRow :=
  { title := "A", type_ := "Movie", country := some "United States, India",
    date_added := none, release_year := 2015, rating := some "PG-13",
    duration := some "90 min", listed_in := some "Dramas" }

/-- Sample raw row shaped like the TV row of the spec scenario. -/
def rawTV : RawRow :=
  { title := "B", type_ := "TV Show", country := some "India",
    date_added := none, release_year := 2019, rating := some "TV-MA",
    duration := some "2 Seasons", listed_in := some "Comedies" }

/-- Raw row whose duration holds a unit token but no digits. -/
def rawBad : RawRow :=
  { title := "C", type_ := "Movie", country := none,
    date_added := none, release_year := 2020, rating := none,
    duration := some "min", listed_in := none }

/-- Raw row whose duration holds both unit tokens and a digit run. -/
def rawBoth : RawRow :=
  { title := "D", type_ := "Movie", country := none,
    date_added := none, release_year := 2021, rating := none,
    duration := some "90 min Season", listed_in := none }

/-- The loaded movie row. -/
def movieRow : Row := mkRow rawMovie (some 90) none

/-- The loaded TV row. -/
def tvRow : Row := mkRow rawTV none (some 2)

/-- The selection of the spec scenario: both types, country India, no genre
or rating constraint, years 2010 to 2021. -/
def sampleSel : Selection :=
  { types := ["Movie", "TV Show"], countries := ["India"], genres := [],
    ratings := [], yearLo := 2010, yearHi := 2021 }

example : load_data [rawMovie, rawTV] = Except.ok [movieRow, tvRow] := by rfl

example : load_data [rawBad] = Except.error "AttributeError" := by rfl

example : load_data [rawBoth] = Except.ok [mkRow rawBoth (some 90) (some 90)] := by rfl

example : top_countries [movieRow, tvRow] = [("India", 2), ("United States", 1)] := by rfl

/-! ### Filter pipeline lemmas -/

theorem filter_and {α : Type} (p q : α → Bool) (l : List α) :
    (l.filter p).filter q = l.filter (fun a => p a && q a) := by
  induction l with
  | nil => rfl
  | cons a l ih => cases hp : p a <;> cases hq : q a <;> simp [List.filter_cons, hp, hq, ih]

theorem countryFilter_eq (c : List String) (df : List Row) :
    countryFilter c df
      = df.filter (fun r => c.isEmpty || (r.country.isSome && countryMatch c r)) := by
  cases hc : c.isEmpty with
  | true => simp [countryFilter, hc]
  | false =>
    simp [countryFilter, hc, filter_and]
    exact List.filter_congr (fun r _ => Bool.and_comm _ _)

theorem genreFilter_eq (g : List String) (df : List Row) :
    genreFilter g df
      = df.filter (fun r => g.isEmpty || (r.listed_in.isSome && genreMatch g r)) := by
  cases hg : g.isEmpty with
  | true => simp [genreFilter, hg]
  | false =>
    simp [genreFilter, hg, filter_and]
    exact List.filter_congr (fun r _ => Bool.and_comm _ _)

theorem ratingFilter_eq (rt : List String) (df : List Row) :
    ratingFilter rt df = df.filter (fun r => rt.isEmpty || ratingMatch rt r) := by
  cases hr : rt.isEmpty with
  | true => simp [ratingFilter, hr]
  | false => simp [ratingFilter, hr]

theorem filtered_df_eq_filter (sel : Selection) (df : List Row) :
    filtered_df sel df = df.filter (selPred sel) := by
  unfold filtered_df selPred typeFilter yearFilter
  rw [countryFilter_eq, genreFilter_eq, ratingFilter_eq]
  simp only [filter_and]

/-! ### Loader lemmas -/

theorem deriveField_ok_isSome {token : String} {d : Option String} {m : Option Nat}
    (h : deriveField token d = Except.ok m) : m.isSome = durTok token d := by
  cases d with
  | none => simp [deriveField] at h; subst h; rfl
  | some s =>
    by_cases ht : strContains s token = true
    · cases hf : firstDigitRun s with
      | none => simp [deriveField, ht, hf] at h
      | some n => simp [deriveField, ht, hf] at h; subst h; simp [durTok, ht]
    · simp only [Bool.not_eq_true] at ht
      simp [deriveField, ht] at h
      subst h
      simp [durTok, ht]

theorem mapME_ok_mem {α β : Type} {f : α → Except String β} :
    ∀ {rs : List α} {ys : List β}, mapME f rs = Except.ok ys →
      ∀ a ∈ rs, ∃ y, f a = Except.ok y := by
  intro rs
  induction rs with
  | nil => intro ys _ a ha; simp at ha
  | cons b bs ih =>
    intro ys h a ha
    cases hb : f b with
    | error e => simp [mapME, hb] at h
    | ok y =>
      cases hbs : mapME f bs with
      | error e => simp [mapME, hb, hbs] at h
      | ok zs =>
        rcases List.mem_cons.mp ha with rfl | ha2
        · exact ⟨y, hb⟩
        · exact ih hbs a ha2

theorem mapME_error_of_mem {α β : Type} {f : α → Except String β} :
    ∀ {rs : List α} {a : α}, a ∈ rs → isOkE (f a) = false →
      isOkE (mapME f rs) = false := by
  intro rs
  induction rs with
  | nil => intro a ha; simp at ha
  | cons b bs ih =>
    intro a ha hfa
    cases hb : f b with
    | error e => simp [mapME, hb, isOkE]
    | ok y =>
      rcases List.mem_cons.mp ha with rfl | ha2
      · rw [hb] at hfa; simp [isOkE] at hfa
      · cases hbs : mapME f bs with
        | error e => simp [mapME, hb, hbs, isOkE]
        | ok zs =>
          have := ih ha2 hfa
          rw [hbs] at this
          simp [isOkE] at this

theorem load_ok_mem :
    ∀ {rs : List RawRow} {t : List Row}, load_data rs = Except.ok t →
      ∀ r ∈ t, ∃ raw, raw ∈ rs ∧ ∃ m s,
        deriveField "min" raw.duration = Except.ok m ∧
        deriveField "Season" raw.duration = Except.ok s ∧
        r = mkRow raw m s := by
  intro rs
  induction rs with
  | nil =>
    intro t ht r hr
    simp [load_data, mapME, zipWith3] at ht
    subst ht; simp at hr
  | cons a as ih =>
    intro t ht r hr
    cases hm : deriveField "min" a.duration with
    | error e => simp [load_data, mapME, hm] at ht
    | ok m =>
      cases hms : mapME (fun x => deriveField "min" x.duration) as with
      | error e => simp [load_data, mapME, hm, hms] at ht
      | ok ms =>
        cases hs : deriveField "Season" a.duration with
        | error e => simp [load_data, mapME, hm, hms, hs] at ht
        | ok s =>
          cases hss : mapME (fun x => deriveField "Season" x.duration) as with
          | error e => simp [load_data, mapME, hm, hms, hs, hss] at ht
          | ok ss =>
            simp [load_data, mapME, hm, hms, hs, hss, zipWith3] at ht
            subst ht
            rcases List.mem_cons.mp hr with rfl | hr2
            · exact ⟨a, List.mem_cons_self a as, m, s, hm, hs, rfl⟩
            · have htail : load_data as = Except.ok (zipWith3 mkRow as ms ss) := by
                simp [load_data, hms, hss]
              obtain ⟨raw, hraw, m2, s2, h1, h2, h3⟩ := ih htail r hr2
              exact ⟨raw, List.mem_cons_of_mem a hraw, m2, s2, h1, h2, h3⟩

theorem load_error_of_mem {rs : List RawRow} {raw : RawRow} (hraw : raw ∈ rs)
    (hbad : isOkE (deriveField "min" raw.duration) = false ∨
      isOkE (deriveField "Season" raw.duration) = false) :
    isOkE (load_data rs) = false := by
  cases hms : mapME (fun x => deriveField "min" x.duration) rs with
  | error e => simp [load_data, hms, isOkE]
  | ok ms =>
    rcases hbad with hb | hb
    · obtain ⟨y, hy⟩ := mapME_ok_mem hms raw hraw
      rw [hy] at hb; simp [isOkE] at hb
    · have := mapME_error_of_mem (f := fun x => deriveField "Season" x.duration) hraw hb
      cases hss : mapME (fun x => deriveField "Season" x.duration) rs with
      | error e => simp [load_data, hms, hss, isOkE]
      | ok ss => rw [hss] at this; simp [isOkE] at this

/-! ### Counting and sorting lemmas -/

theorem mem_dedupFS {a : String} : ∀ {xs : List String}, a ∈ dedupFS xs ↔ a ∈ xs := by
  intro xs
  induction xs with
  | nil => simp [dedupFS]
  | cons x xs ih =>
    by_cases hax : a = x
    · subst hax; simp [dedupFS]
    · simp [dedupFS, List.mem_filter, hax, ih]

theorem dedupFS_nodup : ∀ (xs : List String), (dedupFS xs).Nodup := by
  intro xs
  induction xs with
  | nil => simp [dedupFS]
  | cons x xs ih =>
    refine List.Nodup.cons ?_ (ih.filter _)
    intro hx
    have := (List.mem_filter.mp hx).2
    simp at this

theorem sum_counts_dedupFS (xs : List String) :
    ((dedupFS xs).map (fun k => xs.count k)).sum = xs.length := by
  have hperm : List.Perm (dedupFS xs) xs.dedup :=
    (List.perm_ext_iff_of_nodup (dedupFS_nodup xs) (List.nodup_dedup xs)).2
      (fun a => by rw [mem_dedupFS, List.mem_dedup])
  rw [(hperm.map (fun k => xs.count k)).sum_eq]
  exact List.sum_map_count_dedup_eq_length xs

theorem mem_countsFirstSeen {p : String × Nat} {xs : List String}
    (h : p ∈ countsFirstSeen xs) : p.2 = xs.count p.1 := by
  obtain ⟨k, _, rfl⟩ := List.mem_map.mp h
  rfl

theorem mem_value_counts {p : String × Nat} {xs : List String}
    (h : p ∈ value_counts xs) : p.2 = xs.count p.1 :=
  mem_countsFirstSeen ((List.perm_insertionSort cntGE (countsFirstSeen xs)).subset h)

theorem sorted_value_counts (xs : List String) :
    List.Pairwise cntGE (value_counts xs) :=
  List.sorted_insertionSort cntGE (countsFirstSeen xs)

theorem filter_orderedInsert_eq {n : Nat} {a : String × Nat} (ha : a.2 = n) :
    ∀ (l : List (String × Nat)),
      (List.orderedInsert cntGE a l).filter (fun p => p.2 == n)
        = a :: l.filter (fun p => p.2 == n) := by
  intro l
  induction l with
  | nil => simp [List.orderedInsert, ha]
  | cons b bs ih =>
    by_cases hb : cntGE a b
    · simp [List.orderedInsert, hb, List.filter_cons, ha]
    · have hbn : (b.2 == n) = false := by
        have : n < b.2 := by
          have := Nat.lt_of_not_le (by simpa [cntGE] using hb)
          omega
        simp [Nat.ne_of_gt this]
      simp [List.orderedInsert, hb, List.filter_cons, hbn, ih]

theorem filter_orderedInsert_ne {n : Nat} {a : String × Nat} (ha : ¬ a.2 = n) :
    ∀ (l : List (String × Nat)),
      (List.orderedInsert cntGE a l).filter (fun p => p.2 == n)
        = l.filter (fun p => p.2 == n) := by
  intro l
  induction l with
  | nil => simp [List.orderedInsert, ha]
  | cons b bs ih =>
    by_cases hb : cntGE a b
    · simp [List.orderedInsert, hb, List.filter_cons, ha]
    · simp [List.orderedInsert, hb, List.filter_cons, ih]

theorem filter_insertionSort (n : Nat) :
    ∀ (l : List (String × Nat)),
      (List.insertionSort cntGE l).filter (fun p => p.2 == n)
        = l.filter (fun p => p.2 == n) := by
  intro l
  induction l with
  | nil => rfl
  | cons a l ih =>
    by_cases ha : a.2 = n
    · rw [List.insertionSort, filter_orderedInsert_eq ha, ih]
      simp [List.filter_cons, ha]
    · rw [List.insertionSort, filter_orderedInsert_ne ha, ih]
      simp [List.filter_cons, ha]

/-! ### Claim theorems -/

/-- C1 counterexample: a duration cell holding the token min but no digit
makes the derivation raise, and the error propagates out of load_data to
the caller instead of becoming a null field. -/
theorem c1_counterexample :
    rawBad.duration = some "min"
    ∧ load_data [rawBad] = Except.error "AttributeError" := by
  exact ⟨rfl, rfl⟩

/-- C1 (amended): a null duration derives two null fields without error,
and a duration missing a unit token derives a null field for that token;
but when the duration contains a unit token, min or Season, and no
contiguous digit run, the derivation raises and the error propagates out
of load_data to the caller rather than being recovered as a null field. -/
theorem c1_duration_derivation (s : String) :
    (deriveField "min" none = Except.ok none
      ∧ deriveField "Season" none = Except.ok none)
    ∧ (strContains s "min" = false → deriveField "min" (some s) = Except.ok none)
    ∧ (strContains s "Season" = false → deriveField "Season" (some s) = Except.ok none)
    ∧ (strContains s "min" = true ∨ strContains s "Season" = true →
        firstDigitRun s = none →
        ∀ rs : List RawRow, (∃ raw ∈ rs, raw.duration = some s) →
          isOkE (load_data rs) = false) := by
  refine ⟨⟨rfl, rfl⟩, ?_, ?_, ?_⟩
  · intro h; simp [deriveField, h]
  · intro h; simp [deriveField, h]
  · intro htok hdig rs hex
    obtain ⟨raw, hraw, hdur⟩ := hex
    apply load_error_of_mem hraw
    rcases htok with h | h
    · left
      rw [hdur]
      simp [deriveField, h, hdig, isOkE]
    · right
      rw [hdur]
      simp [deriveField, h, hdig, isOkE]

/-- C1 witness: the hypotheses of the amended theorem hold at the concrete
duration "min", and loading that row indeed fails. -/
theorem c1_witness : isOkE (load_data [rawBad]) = false :=
  (c1_duration_derivation "min").2.2.2 (Or.inl rfl) rfl [rawBad] ⟨rawBad, by simp, rfl⟩

/-- C2 counterexample: with an empty type selection the filter of line 36
keeps no rows, not all rows. -/
theorem c2_counterexample : typeFilter [] [movieRow] ≠ [movieRow] := by
  decide

/-- C2 (amended): an empty type selection keeps no rows, because isin
against the empty set rejects every row; all rows are kept under the UI
default selection, which initializes to the full set of distinct type
values of the table. -/
theorem c2_type_empty_selection (df : List Row) :
    typeFilter [] df = []
    ∧ typeFilter (dedupFS (df.map Row.type_)) df = df := by
  constructor
  · simp [typeFilter]
  · apply List.filter_eq_self.mpr
    intro r hr
    have : r.type_ ∈ dedupFS (df.map Row.type_) :=
      mem_dedupFS.mpr (List.mem_map.mpr ⟨r, hr, rfl⟩)
    exact List.elem_iff.mpr this

/-- C3 counterexample: a duration holding both unit tokens loads into a
record whose duration_minutes and num_seasons are both non-null. -/
theorem c3_counterexample :
    rawBoth.duration = some "90 min Season"
    ∧ load_data [rawBoth] = Except.ok [mkRow rawBoth (some 90) (some 90)]
    ∧ (mkRow rawBoth (some 90) (some 90)).duration_minutes.isSome = true
    ∧ (mkRow rawBoth (some 90) (some 90)).num_seasons.isSome = true := by
  exact ⟨rfl, rfl, rfl, rfl⟩

/-- C3 (amended): in every record produced by the loader, duration_minutes
is non-null exactly when the duration cell is non-null and contains the
token min, and num_seasons exactly when it contains the token Season; so
both are null when duration is missing or unrecognized, exactly one is
non-null when exactly one token occurs, but a duration containing both
tokens populates both fields. -/
theorem c3_derived_fields (rs : List RawRow) (t : List Row)
    (h : load_data rs = Except.ok t) :
    ∀ r ∈ t, r.duration_minutes.isSome = durTok "min" r.duration
      ∧ r.num_seasons.isSome = durTok "Season" r.duration := by
  intro r hr
  obtain ⟨raw, _, m, s, hm, hs, rfl⟩ := load_ok_mem h r hr
  exact ⟨deriveField_ok_isSome hm, deriveField_ok_isSome hs⟩

/-- C3 witness: the amended invariant evaluated on the loaded movie row. -/
theorem c3_witness :
    movieRow.duration_minutes.isSome = durTok "min" movieRow.duration
    ∧ movieRow.num_seasons.isSome = durTok "Season" movieRow.duration :=
  c3_derived_fields [rawMovie, rawTV] [movieRow, tvRow] rfl movieRow (by simp)

/-- C4: with a non-empty country selection, a row survives the country
block of lines 37-39 exactly when it is a row of the input, its country
cell is non-null, and at least one selected token is a substring of the
raw country string. -/
theorem c4_country_filter (c : List String) (hc : c ≠ []) (df : List Row) (r : Row) :
    r ∈ countryFilter c df
      ↔ r ∈ df ∧ r.country.isSome = true ∧ countryMatch c r = true := by
  have hce : c.isEmpty = false := by
    cases c with
    | nil => exact absurd rfl hc
    | cons x xs => rfl
  rw [countryFilter_eq]
  simp [List.mem_filter, hce, and_assoc]

/-- C4 witness: the movie row, whose country cell is "United States,
India", survives the country filter for the selection India. -/
theorem c4_witness :
    movieRow ∈ countryFilter ["India"] [movieRow, tvRow]
      ↔ movieRow ∈ [movieRow, tvRow]
        ∧ movieRow.country.isSome = true
        ∧ countryMatch ["India"] movieRow = true :=
  c4_country_filter ["India"] (by simp) [movieRow, tvRow] movieRow

/-- C5: the filter pipeline of lines 36-45 is idempotent: running it again
with the same selection on its own output changes nothing. -/
theorem c5_filter_idempotent (sel : Selection) (df : List Row) :
    filtered_df sel (filtered_df sel df) = filtered_df sel df := by
  rw [filtered_df_eq_filter, filtered_df_eq_filter, filter_and]
  exact List.filter_congr (fun r _ => Bool.and_self _)

/-- C6: top_countries returns at most ten entries, sorted by count
descending; every entry counts one occurrence per comma-split token of
every non-null country cell; and the descending sort is stable, so equal
counts keep the first-seen key order of the token stream. -/
theorem c6_top_countries (df : List Row) :
    (top_countries df).length ≤ 10
    ∧ List.Pairwise cntGE (top_countries df)
    ∧ (∀ p ∈ top_countries df, p.2 = (explodedCountries df).count p.1)
    ∧ (∀ n : Nat,
        (value_counts (explodedCountries df)).filter (fun p => p.2 == n)
          = (countsFirstSeen (explodedCountries df)).filter (fun p => p.2 == n)) := by
  refine ⟨?_, ?_, ?_, ?_⟩
  · exact List.length_take_le 10 (value_counts (explodedCountries df))
  · exact List.Pairwise.sublist (List.take_sublist 10 _) (sorted_value_counts _)
  · intro p hp
    exact mem_value_counts (List.mem_of_mem_take hp)
  · intro n
    exact filter_insertionSort n _

/-- C6 witness: the guarantees evaluated on the two scenario rows. -/
theorem c6_witness :
    (top_countries [movieRow, tvRow]).length ≤ 10
    ∧ List.Pairwise cntGE (top_countries [movieRow, tvRow])
    ∧ (∀ p ∈ top_countries [movieRow, tvRow],
        p.2 = (explodedCountries [movieRow, tvRow]).count p.1)
    ∧ (∀ n : Nat,
        (value_counts (explodedCountries [movieRow, tvRow])).filter (fun p => p.2 == n)
          = (countsFirstSeen (explodedCountries [movieRow, tvRow])).filter
              (fun p => p.2 == n)) :=
  c6_top_countries [movieRow, tvRow]

/-- C7: an empty rating selection passes every row through unchanged, and a
non-empty one keeps a row exactly when the row is in the input and its
rating cell is an exact member of the selected list. -/
theorem c7_rating_filter (rt : List String) (hrt : rt ≠ []) (df : List Row) (r : Row) :
    ratingFilter [] df = df
    ∧ (r ∈ ratingFilter rt df ↔ r ∈ df ∧ ratingMatch rt r = true) := by
  have hre : rt.isEmpty = false := by
    cases rt with
    | nil => exact absurd rfl hrt
    | cons x xs => rfl
  constructor
  · simp [ratingFilter]
  · rw [ratingFilter_eq]
    simp [List.mem_filter, hre]

/-- C7 witness: the rating filter evaluated on the scenario table with the
selection PG-13. -/
theorem c7_witness :
    ratingFilter [] [movieRow, tvRow] = [movieRow, tvRow]
    ∧ (movieRow ∈ ratingFilter ["PG-13"] [movieRow, tvRow]
        ↔ movieRow ∈ [movieRow, tvRow] ∧ ratingMatch ["PG-13"] movieRow = true) :=
  c7_rating_filter ["PG-13"] (by simp) [movieRow, tvRow] movieRow

/-- C8: the per-type counts behind the countplot sum to the number of rows
of the filtered table. -/
theorem c8_countByType_sum (df : List Row) :
    ((countByType df).map Prod.snd).sum = df.length := by
  have h := sum_counts_dedupFS (df.map Row.type_)
  rw [List.length_map] at h
  simpa [countByType, List.map_map, Function.comp] using h

/-- C9: one recompute pass never mutates the canonical table: the df
component is unchanged, every row of the derived view is a row of the
canonical table, and the derived view depends on nothing but the canonical
table and the selection. -/
theorem c9_no_mutation (sel : Selection) (st st2 : DashState) (hdf : st.df = st2.df) :
    (recompute sel st).df = st.df
    ∧ (∀ r ∈ (recompute sel st).filtered, r ∈ st.df)
    ∧ (recompute sel st).filtered = (recompute sel st2).filtered := by
  refine ⟨rfl, ?_, ?_⟩
  · intro r hr
    have hsub : List.Sublist (filtered_df sel st.df) st.df := by
      rw [filtered_df_eq_filter]
      exact List.filter_sublist st.df
    exact hsub.subset hr
  · simp [recompute, hdf]

/-- C9 witness: a recompute over the scenario table, against a second state
holding the same canonical table but a stale view. -/
theorem c9_witness :
    (recompute sampleSel ⟨[movieRow, tvRow], []⟩).df = [movieRow, tvRow]
    ∧ (∀ r ∈ (recompute sampleSel ⟨[movieRow, tvRow], []⟩).filtered,
        r ∈ [movieRow, tvRow])
    ∧ (recompute sampleSel ⟨[movieRow, tvRow], []⟩).filtered
        = (recompute sampleSel ⟨[movieRow, tvRow], [movieRow]⟩).filtered :=
  c9_no_mutation sampleSel ⟨[movieRow, tvRow], []⟩ ⟨[movieRow, tvRow], [movieRow]⟩ rfl

/-- C10: the filtered view is an order-preserving subset of the input: it
is a sublist of the input table, so every output row is an input row and
kept rows appear in their input order. -/
theorem c10_order_preserving (sel : Selection) (df : List Row) :
    List.Sublist (filtered_df sel df) df := by
  rw [filtered_df_eq_filter]
  exact List.filter_sublist df

end Dashboard
